import Mathlib

/-!
Verification of the go-kubernetes tutorial repository: a shallow embedding
of the Gin HTTP handlers (`getMessage` in both revisions), the UDP
address-discovery helper `getIpAddress`, the router dispatch set up in
`main`, and the nginx Ingress routing rules, together with theorems
settling the specification's claims.
-/

namespace GoKubernetes

/-- An inbound HTTP request as seen by a Gin handler (`*gin.Context`):
method, path, headers and body.  The handlers under verification read
none of these fields. -/
structure Request where
  method : String
  path : String
  headers : List (String × String)
  body : String
deriving DecidableEq

/-- An HTTP response: status code and the serialized JSON object's
string fields, in source order (`gin.H{...}` with string values). -/
structure Response where
  status : Nat
  fields : List (String × String)
deriving DecidableEq

/-- `http.StatusOK`. -/
def statusOK : Nat := 200

/-- The response Gin produces when no registered route matches. -/
def notFoundResponse : Response := { status := 404, fields := [] }

/-- A local UDP address as carried by Go's `*net.UDPAddr`: the IP
rendered by `IP.String()` and the port. -/
structure UDPAddr where
  ip : String
  port : Nat
deriving DecidableEq

/-- The dynamic type of the value returned by `conn.LocalAddr()`:
Go's `net.Addr` interface, which at runtime is a `*net.UDPAddr`, a
`*net.TCPAddr`, or some other concrete address type. -/
inductive NetAddr where
  | udp (a : UDPAddr)
  | other (kind : String)
deriving DecidableEq

/-- A connection handle as returned by `net.Dial`: the only part of it
the program reads is `LocalAddr()`. -/
structure Conn where
  localAddr : NetAddr
deriving DecidableEq

/-- Observable network-resource events performed by the program. -/
inductive NetEvent where
  | dial (network : String) (addr : String)
  | close
  | send
  | recv
deriving DecidableEq

/-- `true` exactly on `dial` events. -/
def NetEvent.isDial : NetEvent → Bool
  | .dial _ _ => true
  | _ => false

/-- Outcome of running a Go function that may call `log.Fatal`
(process exit) or panic (failed type assertion). -/
inductive ProcResult (α : Type) where
  | ok (a : α)
  | fatalExit (msg : String)
  | panicked
deriving DecidableEq

/-- `net.Dial("udp", "8.8.8.8:80")` as an environment outcome: the OS
either reports an error or yields a connection whose local address is
the UDP address it bound.  A UDP dial that succeeds always produces a
connection whose `LocalAddr()` is a `*net.UDPAddr`. -/
def netDialUDP (outcome : Except String UDPAddr) : Except String Conn :=
  outcome.map (fun a => { localAddr := NetAddr.udp a })

/-- Embedding of `getIpAddress` (src/unnamed/part_001 lines 11-19):
dial UDP to 8.8.8.8:80; on error call `log.Fatal` (process exits, the
`defer conn.Close()` is not yet registered); otherwise read
`conn.LocalAddr()`, assert it to `*net.UDPAddr` (panicking if the
assertion fails, with the deferred close still running), and return
`ipAddress.IP.String()` after the deferred close.  Returns the outcome
paired with the trace of network-resource events. -/
def getIpAddress (env : Except String Conn) : ProcResult String × List NetEvent :=
  match env with
  | .error e => (.fatalExit e, [.dial "udp" "8.8.8.8:80"])
  | .ok conn =>
    match conn.localAddr with
    | .udp a => (.ok a.ip, [.dial "udp" "8.8.8.8:80", .close])
    | .other _ => (.panicked, [.dial "udp" "8.8.8.8:80", .close])

/-- Embedding of `getMessage` from src/api/main.go lines 9-18: respond
200 with a fixed two-field JSON object.  The `*gin.Context` argument is
not read. -/
def getMessageStatic (_ctx : Request) : Response :=
  { status := statusOK
    fields := [("title", "Hello from Go!"), ("body", "Welcome to Kubernetes.")] }

/-- The single-quote character appearing in part_001's body string. -/
def quoteChar : String := String.singleton (Char.ofNat 39)

/-- The `body` string built by `getMessage` in src/unnamed/part_001
line 28 around the discovered IP address. -/
def part001Body (ip : String) : String :=
  "Welcome to Kubernetes pod@" ++ quoteChar ++ ip ++ quoteChar ++ "."

/-- Embedding of `getMessage` from src/unnamed/part_001 lines 21-30:
call `getIpAddress` (whose fatal exit or panic propagates), then respond
200 with a two-field JSON object embedding the IP.  The `*gin.Context`
argument is not read. -/
def getMessageWithIp (env : Except String Conn) (_ctx : Request) : ProcResult Response :=
  match (getIpAddress env).1 with
  | .ok ip =>
      .ok { status := statusOK
            fields := [("title", "Hello from Go!"), ("body", part001Body ip)] }
  | .fatalExit e => .fatalExit e
  | .panicked => .panicked

/-- Route lookup: Gin matches a request against the registered
(method, path) pairs and returns the attached handler, if any. -/
def findRoute {H : Type} (routes : List ((String × String) × H)) (req : Request) : Option H :=
  (routes.find? (fun r => r.1.1 == req.method && r.1.2 == req.path)).map Prod.snd

/-- Gin's `RedirectTrailingSlash` test (enabled by `gin.Default()`):
an unmatched path is answered with a redirect when, for the same
method, a route is registered at the path with the final slash added
or removed. -/
def redirectTrailingSlash {H : Type} (routes : List ((String × String) × H))
    (req : Request) : Bool :=
  routes.any (fun r =>
    r.1.1 == req.method && (r.1.2 ++ "/" == req.path || req.path ++ "/" == r.1.2))

/-- The status of Gin's trailing-slash redirect:
`http.StatusMovedPermanently` (301) for GET requests,
`http.StatusTemporaryRedirect` (307) for all other methods. -/
def redirectStatus (method : String) : Nat :=
  if method = "GET" then 301 else 307

/-- The (bodiless) response of Gin's trailing-slash redirect. -/
def redirectResponse (method : String) : Response :=
  { status := redirectStatus method, fields := [] }

/-- The route table registered by `main` in src/api/main.go lines 20-24:
only `router.GET("/message", getMessage)`. -/
def routesStatic : List ((String × String) × (Request → Response)) :=
  [(("GET", "/message"), getMessageStatic)]

/-- The server built by `main` in src/api/main.go: dispatch on the
single registered route; an unmatched request gets the trailing-slash
redirect when `RedirectTrailingSlash` applies (on by `gin.Default()`),
and 404 otherwise. -/
def serveStatic (req : Request) : Response :=
  match findRoute routesStatic req with
  | some h => h req
  | none =>
    if redirectTrailingSlash routesStatic req then redirectResponse req.method
    else notFoundResponse

/-- The route table registered by `main` in src/unnamed/part_001 lines
32-36: only `router.GET("/message", getMessage)`. -/
def routesWithIp (env : Except String Conn) :
    List ((String × String) × (Request → ProcResult Response)) :=
  [(("GET", "/message"), getMessageWithIp env)]

/-- The server built by `main` in src/unnamed/part_001: dispatch on the
single registered route; an unmatched request gets the trailing-slash
redirect when `RedirectTrailingSlash` applies (on by `gin.Default()`),
and 404 otherwise. -/
def serveWithIp (env : Except String Conn) (req : Request) : ProcResult Response :=
  match findRoute (routesWithIp env) req with
  | some h => h req
  | none =>
    if redirectTrailingSlash (routesWithIp env) req then .ok (redirectResponse req.method)
    else .ok notFoundResponse

/-- Handling a sequence of requests by the part_001 server: each request
is served against the same (immutable) route table and environment. -/
def handleSeq (env : Except String Conn) (reqs : List Request) : List (ProcResult Response) :=
  reqs.map (serveWithIp env)

/-! ### IPv4 dotted-quad syntax -/

/-- Numeric value of a decimal digit character. -/
def digitVal (c : Char) : Nat := c.toNat - 48

/-- Decimal value of a digit string. -/
def octetVal (l : List Char) : Nat := l.foldl (fun n c => 10 * n + digitVal c) 0

/-- A syntactically valid IPv4 octet: one to three decimal digits whose
value is at most 255. -/
def isValidOctet (l : List Char) : Bool :=
  decide (l ≠ []) && decide (l.length ≤ 3) && l.all Char.isDigit
    && decide (octetVal l ≤ 255)

/-- A syntactically valid IPv4 dotted quad: four valid octets separated
by dots. -/
def isValidIPv4Chars (l : List Char) : Bool :=
  let parts := l.splitOn (Char.ofNat 46)
  decide (parts.length = 4) && parts.all isValidOctet

/-- String form of `isValidIPv4Chars`. -/
def isValidIPv4 (s : String) : Bool := isValidIPv4Chars s.data

/-- Whether some contiguous substring of `s` is a syntactically valid
IPv4 dotted quad, by scanning every suffix's prefixes. -/
def containsValidIPv4 (s : String) : Bool :=
  s.data.tails.any (fun t => t.inits.any (fun l => isValidIPv4Chars l))

/-! ### Ingress routing (src/unnamed/part_000) -/

/-- A backend named by an Ingress rule: service name and port. -/
structure Backend where
  service : String
  port : Nat
deriving DecidableEq

/-- Modelled from the spec: the external nginx Ingress controller's
matching of the first rule's path regex `/api(/|$)(.*)` (anchored at the
start of the request path), which the repository only declares in
src/unnamed/part_000; returns the text captured by the second group
`(.*)` when the path matches.  After `/api` the path must either end or
continue with `/`. -/
def matchApiRule (path : String) : Option String :=
  if path = "/api" then some ""
  else if path.data.take 5 = "/api/".data then some (String.mk (path.data.drop 5))
  else none

/-- Modelled from the spec: the routing decision of the Ingress in
src/unnamed/part_000 as carried out by the external controller.  A path
matching `/api(/|$)(.*)` is rewritten by the ingress-wide annotation
`rewrite-target: "/$2"` and forwarded to `go-kubernetes-api:80`; per the
spec all other paths are forwarded unmodified to
`go-kubernetes-frontend:80`.  Returns the chosen backend and the
internal request path. -/
def ingressRoute (path : String) : Backend × String :=
  match matchApiRule path with
  | some g2 => ({ service := "go-kubernetes-api", port := 80 }, "/" ++ g2)
  | none => ({ service := "go-kubernetes-frontend", port := 80 }, path)

/-! ### Helper lemmas -/

/-- String append concatenates the underlying character lists. -/
theorem dataAppend (s t : String) : (s ++ t).data = s.data ++ t.data := by
  cases s; cases t; rfl

/-- A string with a non-nil character list is not the empty string. -/
theorem ne_empty_of_data_ne_nil {s : String} (h : s.data ≠ []) : s ≠ "" :=
  fun he => h (by rw [he])

/-- The character list underlying `part001Body ip`. -/
theorem part001Body_data (ip : String) :
    (part001Body ip).data
      = ("Welcome to Kubernetes pod@" ++ quoteChar).data
          ++ (ip.data ++ (quoteChar ++ ".").data) := by
  simp [part001Body, dataAppend, List.append_assoc]

/-- The body built by part_001's handler is never the empty string. -/
theorem part001Body_ne_empty (ip : String) : part001Body ip ≠ "" := by
  apply ne_empty_of_data_ne_nil
  rw [part001Body_data]
  intro h
  rcases List.append_eq_nil.mp h with ⟨h1, -⟩
  have : ("Welcome to Kubernetes pod@" ++ quoteChar).data ≠ [] := by decide
  exact this h1

/-- If the characters of `s` split as `pre ++ (l ++ suf)` and `l` is a
valid dotted quad, then `s` contains a valid IPv4 substring. -/
theorem containsValidIPv4_of_split (s : String) (l pre suf : List Char)
    (hs : s.data = pre ++ (l ++ suf)) (hv : isValidIPv4Chars l = true) :
    containsValidIPv4 s = true := by
  unfold containsValidIPv4
  rw [List.any_eq_true]
  refine ⟨l ++ suf, (List.mem_tails _ _).mpr ⟨pre, hs.symm⟩, ?_⟩
  rw [List.any_eq_true]
  exact ⟨l, (List.mem_inits _ _).mpr ⟨suf, rfl⟩, hv⟩

/-- A sample inbound request used to instantiate universally quantified
theorems at concrete inputs. -/
def sampleGet : Request := { method := "GET", path := "/message", headers := [], body := "" }

/-! ### Claim theorems -/

/-- Claim C1: for every GET request to /message, the handler (in either
revision, whenever it produces a response at all) responds with HTTP
status 200 and a JSON object containing exactly the string fields
`title` and `body`, both non-empty. -/
theorem getMessage_wellformed :
    (∀ ctx : Request,
      (getMessageStatic ctx).status = 200 ∧
      (getMessageStatic ctx).fields.map Prod.fst = ["title", "body"] ∧
      ∀ p ∈ (getMessageStatic ctx).fields, p.2 ≠ "") ∧
    (∀ (env : Except String Conn) (ctx : Request) (resp : Response),
      getMessageWithIp env ctx = ProcResult.ok resp →
      resp.status = 200 ∧
      resp.fields.map Prod.fst = ["title", "body"] ∧
      ∀ p ∈ resp.fields, p.2 ≠ "") := by
  constructor
  · intro ctx
    refine ⟨rfl, rfl, ?_⟩
    intro p hp
    simp only [getMessageStatic] at hp
    rw [List.mem_cons, List.mem_cons] at hp
    rcases hp with hp | hp | hp
    · rw [hp]; decide
    · rw [hp]; decide
    · exact absurd hp (List.not_mem_nil p)
  · intro env ctx resp h
    unfold getMessageWithIp at h
    cases hip : (getIpAddress env).1 with
    | ok ip =>
        rw [hip] at h
        cases h
        refine ⟨rfl, rfl, ?_⟩
        intro p hp
        rw [List.mem_cons, List.mem_cons] at hp
        rcases hp with hp | hp | hp
        · rw [hp]; decide
        · rw [hp]; exact part001Body_ne_empty ip
        · exact absurd hp (List.not_mem_nil p)
    | fatalExit e => rw [hip] at h; cases h
    | panicked => rw [hip] at h; cases h

/-- Witness for C1 at a concrete environment and request. -/
theorem getMessage_wellformed_witness :
    ({ status := 200,
       fields := [("title", "Hello from Go!"), ("body", part001Body "10.1.0.58")] : Response }.status = 200 ∧
     ({ status := 200,
        fields := [("title", "Hello from Go!"), ("body", part001Body "10.1.0.58")] : Response }.fields.map Prod.fst = ["title", "body"]) ∧
     ∀ p ∈ ({ status := 200,
              fields := [("title", "Hello from Go!"), ("body", part001Body "10.1.0.58")] : Response }.fields), p.2 ≠ "") :=
  getMessage_wellformed.2 (netDialUDP (Except.ok { ip := "10.1.0.58", port := 51234 }))
    sampleGet _ rfl

/-- Claim C2 (counterexample): the revision in src/api/main.go also
serves GET /message, and its response body "Welcome to Kubernetes."
contains no syntactically valid IPv4 dotted-quad substring, so not every
handler revision's body contains one. -/
theorem staticBody_no_ipv4_counterexample :
    serveStatic sampleGet = getMessageStatic sampleGet ∧
    (getMessageStatic sampleGet).fields
      = [("title", "Hello from Go!"), ("body", "Welcome to Kubernetes.")] ∧
    containsValidIPv4 "Welcome to Kubernetes." = false := by
  refine ⟨rfl, rfl, by decide⟩

/-- Claim C2 (amended): in the src/unnamed/part_001 revision, whenever
the discovered IP string is a syntactically valid IPv4 dotted quad, the
response body contains a valid IPv4 dotted-quad substring; the
src/api/main.go revision's fixed body contains none. -/
theorem part001Body_contains_ipv4 (ip : String) (h : isValidIPv4 ip = true) :
    containsValidIPv4 (part001Body ip) = true := by
  apply containsValidIPv4_of_split (part001Body ip) ip.data
    (("Welcome to Kubernetes pod@" ++ quoteChar).data) ((quoteChar ++ ".").data)
  · exact part001Body_data ip
  · exact h

/-- Witness for the amended C2 at a concrete IPv4 string. -/
theorem part001Body_contains_ipv4_witness :
    containsValidIPv4 (part001Body "10.1.0.58") = true :=
  part001Body_contains_ipv4 "10.1.0.58" (by decide)

/-- Claim C3: if the UDP dial fails, `getIpAddress` calls `log.Fatal`
and never returns a value: the outcome is a fatal process exit, no
error value is propagated, and no IP string is ever produced. -/
theorem getIpAddress_fatal_on_dial_error :
    ∀ e : String,
      getIpAddress (netDialUDP (Except.error e))
        = (ProcResult.fatalExit e, [NetEvent.dial "udp" "8.8.8.8:80"]) ∧
      ∀ ip : String,
        (getIpAddress (netDialUDP (Except.error e))).1 ≠ ProcResult.ok ip := by
  intro e
  refine ⟨rfl, fun ip h => ?_⟩
  simp [getIpAddress, netDialUDP, Except.map] at h

/-- Claim C4 (counterexample): GET /message/ is an unmatched
method-and-path pair, yet `gin.Default()`'s `RedirectTrailingSlash`
answers it with a 301 redirect rather than 404, in both revisions'
servers. -/
theorem trailing_slash_redirect_counterexample :
    ¬(({ method := "GET", path := "/message/", headers := [], body := "" : Request }).method = "GET"
        ∧ ({ method := "GET", path := "/message/", headers := [], body := "" : Request }).path = "/message") ∧
    serveStatic { method := "GET", path := "/message/", headers := [], body := "" }
      = redirectResponse "GET" ∧
    (serveStatic { method := "GET", path := "/message/", headers := [], body := "" }).status = 301 ∧
    serveStatic { method := "GET", path := "/message/", headers := [], body := "" }
      ≠ notFoundResponse ∧
    serveWithIp (netDialUDP (Except.ok { ip := "10.1.0.58", port := 51234 }))
        { method := "GET", path := "/message/", headers := [], body := "" }
      = ProcResult.ok (redirectResponse "GET") :=
  ⟨by decide, by decide, by decide, by decide, by decide⟩

/-- Claim C4 (amended): every request whose method-and-path pair is not
the single registered route GET /message, and which does not trigger the
router's trailing-slash redirect (no route is registered at the path
with the final slash added or removed for the same method), gets a 404
response from both revisions' servers; a pair like GET /message/ is
instead answered with a redirect. -/
theorem unmatched_nonredirect_404 :
    ∀ (req : Request) (env : Except String Conn),
      ¬(req.method = "GET" ∧ req.path = "/message") →
      redirectTrailingSlash routesStatic req = false →
      serveStatic req = notFoundResponse ∧
      serveWithIp env req = ProcResult.ok notFoundResponse ∧
      notFoundResponse.status = 404 := by
  intro req env h hr
  have hrs : redirectTrailingSlash [(("GET", "/message"), getMessageStatic)] req = false := hr
  have hrw : redirectTrailingSlash [(("GET", "/message"), getMessageWithIp env)] req = false := hr
  have hp : ((("GET" : String) == req.method) && (("/message" : String) == req.path)) = false := by
    by_cases h1 : "GET" = req.method
    · by_cases h2 : "/message" = req.path
      · exact absurd ⟨h1.symm, h2.symm⟩ h
      · simp [h2]
    · simp [h1]
  refine ⟨?_, ?_, rfl⟩
  · simp [serveStatic, findRoute, routesStatic, List.find?, hp, hrs]
  · simp [serveWithIp, findRoute, routesWithIp, List.find?, hp, hrw]

/-- Witness for the amended C4 at a concrete unregistered pair that is
not a trailing-slash variant of the route. -/
theorem unmatched_nonredirect_404_witness :
    serveStatic { method := "POST", path := "/other", headers := [], body := "" }
        = notFoundResponse ∧
    serveWithIp (netDialUDP (Except.error "network is unreachable"))
        { method := "POST", path := "/other", headers := [], body := "" }
        = ProcResult.ok notFoundResponse ∧
    notFoundResponse.status = 404 :=
  unmatched_nonredirect_404 { method := "POST", path := "/other", headers := [], body := "" }
    (netDialUDP (Except.error "network is unreachable")) (by decide) (by decide)

/-- Claim C5: the external path /api/message matches the Ingress rule
regex, the rewrite strips the /api prefix, and the request is forwarded
to go-kubernetes-api on port 80 with internal path /message. -/
theorem ingress_api_message_rewrite :
    matchApiRule "/api/message" = some "message" ∧
    ingressRoute "/api/message"
      = ({ service := "go-kubernetes-api", port := 80 }, "/message") :=
  ⟨by decide, by decide⟩

/-- Claim C6: every path not matching the /api rule is forwarded to
go-kubernetes-frontend on port 80 with the path unmodified. -/
theorem ingress_fallthrough_unmodified :
    ∀ path : String, matchApiRule path = none →
      ingressRoute path
        = ({ service := "go-kubernetes-frontend", port := 80 }, path) := by
  intro path h
  simp [ingressRoute, h]

/-- Witness for C6 at a concrete path outside the api rule. -/
theorem ingress_fallthrough_unmodified_witness :
    ingressRoute "/anything-else"
      = ({ service := "go-kubernetes-frontend", port := 80 }, "/anything-else") :=
  ingress_fallthrough_unmodified "/anything-else" (by decide)

/-- Claim C7: on a successful dial, `getIpAddress` performs exactly one
dial, never sends or receives data, has closed the connection by the
time it returns (the close is the final resource event), and returns
exactly the local address's IP string. -/
theorem getIpAddress_frame :
    ∀ a : UDPAddr,
      (getIpAddress (netDialUDP (Except.ok a))).1 = ProcResult.ok a.ip ∧
      (getIpAddress (netDialUDP (Except.ok a))).2.countP NetEvent.isDial = 1 ∧
      NetEvent.send ∉ (getIpAddress (netDialUDP (Except.ok a))).2 ∧
      NetEvent.recv ∉ (getIpAddress (netDialUDP (Except.ok a))).2 ∧
      (getIpAddress (netDialUDP (Except.ok a))).2.getLast? = some NetEvent.close := by
  intro a
  refine ⟨rfl, rfl, ?_, ?_, rfl⟩
  · show NetEvent.send ∉ [NetEvent.dial "udp" "8.8.8.8:80", NetEvent.close]
    decide
  · show NetEvent.recv ∉ [NetEvent.dial "udp" "8.8.8.8:80", NetEvent.close]
    decide

/-- Claim C8: the /message handler is stateless and request-independent:
responses depend only on the routing pair and the network environment,
not on headers or body, and serving one request leaves the responses of
later requests unchanged. -/
theorem handler_stateless :
    ∀ (env : Except String Conn) (r1 r2 : Request),
      r1.method = r2.method → r1.path = r2.path →
      serveStatic r1 = serveStatic r2 ∧
      serveWithIp env r1 = serveWithIp env r2 ∧
      handleSeq env [r1, r2] = [serveWithIp env r1, serveWithIp env r2] := by
  intro env r1 r2 hm hp
  refine ⟨?_, ?_, rfl⟩
  · by_cases hc : "GET" = r2.method ∧ "/message" = r2.path
    · simp [serveStatic, findRoute, routesStatic, hm, hp, hc, getMessageStatic]
    · simp [serveStatic, findRoute, routesStatic, redirectTrailingSlash, hm, hp, hc]
  · by_cases hc : "GET" = r2.method ∧ "/message" = r2.path
    · simp [serveWithIp, findRoute, routesWithIp, hm, hp, hc, getMessageWithIp]
    · simp [serveWithIp, findRoute, routesWithIp, redirectTrailingSlash, hm, hp, hc]

/-- Witness for C8 at two concrete GET /message requests differing in
headers and body. -/
theorem handler_stateless_witness :
    serveStatic { method := "GET", path := "/message",
                  headers := [("X-Trace", "abc")], body := "ignored" }
        = serveStatic sampleGet ∧
    serveWithIp (netDialUDP (Except.ok { ip := "10.1.0.58", port := 51234 }))
        { method := "GET", path := "/message",
          headers := [("X-Trace", "abc")], body := "ignored" }
        = serveWithIp (netDialUDP (Except.ok { ip := "10.1.0.58", port := 51234 })) sampleGet ∧
    handleSeq (netDialUDP (Except.ok { ip := "10.1.0.58", port := 51234 }))
        [{ method := "GET", path := "/message",
           headers := [("X-Trace", "abc")], body := "ignored" }, sampleGet]
      = [serveWithIp (netDialUDP (Except.ok { ip := "10.1.0.58", port := 51234 }))
           { method := "GET", path := "/message",
             headers := [("X-Trace", "abc")], body := "ignored" },
         serveWithIp (netDialUDP (Except.ok { ip := "10.1.0.58", port := 51234 })) sampleGet] :=
  handler_stateless (netDialUDP (Except.ok { ip := "10.1.0.58", port := 51234 }))
    { method := "GET", path := "/message", headers := [("X-Trace", "abc")], body := "ignored" }
    sampleGet rfl rfl

/-- Claim C9: whenever the UDP dial succeeds the local address is a
`*net.UDPAddr`, so the type assertion succeeds and `getIpAddress` never
panics: every execution either returns an IP string or exits the
process fatally. -/
theorem getIpAddress_no_panic :
    ∀ outcome : Except String UDPAddr,
      (getIpAddress (netDialUDP outcome)).1 ≠ ProcResult.panicked ∧
      ((∃ ip, (getIpAddress (netDialUDP outcome)).1 = ProcResult.ok ip) ∨
       (∃ e, (getIpAddress (netDialUDP outcome)).1 = ProcResult.fatalExit e)) := by
  intro outcome
  cases outcome with
  | error e =>
      exact ⟨by simp [getIpAddress, netDialUDP, Except.map], Or.inr ⟨e, rfl⟩⟩
  | ok a =>
      exact ⟨by simp [getIpAddress, netDialUDP, Except.map], Or.inl ⟨a.ip, rfl⟩⟩

/-- Claim C10: only GET is registered for /message; for any other method
on that path neither revision's route lookup finds a handler, and both
servers answer 404, which is not 200. -/
theorem message_non_get_rejected :
    ∀ (req : Request) (env : Except String Conn),
      req.path = "/message" → req.method ≠ "GET" →
      findRoute routesStatic req = none ∧
      findRoute (routesWithIp env) req = none ∧
      serveStatic req = notFoundResponse ∧
      serveWithIp env req = ProcResult.ok notFoundResponse ∧
      notFoundResponse.status ≠ 200 := by
  intro req env hpath hm
  have hg : ((("GET" : String)) == req.method) = false := by
    have h1 : ¬("GET" = req.method) := fun h => hm h.symm
    simp [h1]
  have hp : ((("GET" : String) == req.method) && (("/message" : String) == req.path)) = false := by
    simp [hg]
  have hr : redirectTrailingSlash routesStatic req = false := by
    simp [redirectTrailingSlash, routesStatic, hg]
  have hrs : redirectTrailingSlash [(("GET", "/message"), getMessageStatic)] req = false := hr
  have hrw : redirectTrailingSlash [(("GET", "/message"), getMessageWithIp env)] req = false := hr
  refine ⟨?_, ?_, ?_, ?_, by decide⟩
  · simp [findRoute, routesStatic, List.find?, hp]
  · simp [findRoute, routesWithIp, List.find?, hp]
  · simp [serveStatic, findRoute, routesStatic, List.find?, hp, hrs]
  · simp [serveWithIp, findRoute, routesWithIp, List.find?, hp, hrw]

/-- Witness for C10 at a concrete POST /message request. -/
theorem message_non_get_rejected_witness :
    findRoute routesStatic { method := "POST", path := "/message", headers := [], body := "" }
        = none ∧
    findRoute (routesWithIp (netDialUDP (Except.ok { ip := "10.1.0.58", port := 51234 })))
        { method := "POST", path := "/message", headers := [], body := "" } = none ∧
    serveStatic { method := "POST", path := "/message", headers := [], body := "" }
        = notFoundResponse ∧
    serveWithIp (netDialUDP (Except.ok { ip := "10.1.0.58", port := 51234 }))
        { method := "POST", path := "/message", headers := [], body := "" }
        = ProcResult.ok notFoundResponse ∧
    notFoundResponse.status ≠ 200 :=
  message_non_get_rejected { method := "POST", path := "/message", headers := [], body := "" }
    (netDialUDP (Except.ok { ip := "10.1.0.58", port := 51234 })) rfl (by decide)

end GoKubernetes
